import Mathlib

/-!
Verification of the homework-status Telegram bot (`homework.py`).

The JSON payloads handled by the bot are embedded as `JValue`; the pure
functions `check_response`, `parse_status`, `check_tokens`, `get_api_answer`
and `send_message` are shallow embeddings of the Python functions of the same
names, and `mainIterate`/`mainRun` embed one iteration (resp. a finite trace
of iterations) of the `while True` poll loop in `main`.  External effects
(the HTTP transport, the Telegram send, the wall clock) are passed in as
explicit inputs; log statements are modelled only where a claim mentions
them (`check_tokens`, `send_message`).
-/

/-- A JSON value as decoded by `response.json()` in Python: `None`, booleans,
(integer) numbers, strings, arrays, and objects as key/value lists. -/
inductive JValue where
  | null : JValue
  | bool : Bool → JValue
  | num : Int → JValue
  | str : String → JValue
  | arr : List JValue → JValue
  | obj : List (String × JValue) → JValue

/-- Python dict lookup on an association list (keys are unique in a decoded
JSON object, so first-match lookup is dict lookup). -/
def dictGet : List (String × JValue) → String → Option JValue
  | [], _ => none
  | (k, v) :: rest, key => if k = key then some v else dictGet rest key

/-- Lookup in a `str → str` dict (used for `HOMEWORK_VERDICTS`). -/
def dictGetStr : List (String × String) → String → Option String
  | [], _ => none
  | (k, v) :: rest, key => if k = key then some v else dictGetStr rest key

/-- Python `type(x)` rendered as in CPython error interpolation,
e.g. `<class 'dict'>`. -/
def pytype : JValue → String
  | .obj _ => "<class \x27dict\x27>"
  | .arr _ => "<class \x27list\x27>"
  | .str _ => "<class \x27str\x27>"
  | .num _ => "<class \x27int\x27>"
  | .bool _ => "<class \x27bool\x27>"
  | .null => "<class \x27NoneType\x27>"

mutual

/-- Python `repr` of a decoded JSON value (used by `str` on containers). -/
def pyRepr : JValue → String
  | .null => "None"
  | .bool true => "True"
  | .bool false => "False"
  | .num n => toString n
  | .str s => "\x27" ++ s ++ "\x27"
  | .arr xs => "[" ++ pyReprElems xs ++ "]"
  | .obj kvs => "\x7b" ++ pyReprItems kvs ++ "\x7d"

/-- Comma-separated `repr`s of the elements of a Python list. -/
def pyReprElems : List JValue → String
  | [] => ""
  | [x] => pyRepr x
  | x :: y :: rest => pyRepr x ++ ", " ++ pyReprElems (y :: rest)

/-- Comma-separated `repr`s of the items of a Python dict. -/
def pyReprItems : List (String × JValue) → String
  | [] => ""
  | [(k, v)] => "\x27" ++ k ++ "\x27: " ++ pyRepr v
  | (k, v) :: y :: rest =>
    "\x27" ++ k ++ "\x27: " ++ pyRepr v ++ ", " ++ pyReprItems (y :: rest)

end

/-- Python `str(x)` under an f-string: identity on strings, `repr` otherwise. -/
def pyStr : JValue → String
  | .str s => s
  | v => pyRepr v

/-- The `HOMEWORK_VERDICTS` module constant of `homework.py`. -/
def HOMEWORK_VERDICTS : List (String × String) :=
  [("approved", "Работа проверена: ревьюеру всё понравилось. Ура!"),
   ("reviewing", "Работа взята на проверку ревьюером."),
   ("rejected", "Работа проверена: у ревьюера есть замечания.")]

/-- Python `repr` of a `str → str` dict, as interpolated into the
`ValueError` message of `parse_status`. -/
def strDictRepr (kvs : List (String × String)) : String :=
  "\x7b" ++
    String.intercalate ", "
      (kvs.map (fun kv => "\x27" ++ kv.1 ++ "\x27: \x27" ++ kv.2 ++ "\x27")) ++
    "\x7d"

/-- Embedding of `check_response(response)`: demands the payload be a dict
holding the keys `homeworks` and `current_date` with a list under
`homeworks`, returning that list; any violation raises `TypeError`
(modelled as `Except.error` carrying the exception text). -/
def check_response : JValue → Except String (List JValue)
  | .obj kvs =>
    match dictGet kvs "homeworks" with
    | none => .error "There are no key `homeworks` in API response"
    | some hv =>
      match dictGet kvs "current_date" with
      | none => .error "There are no key `current_date` in API response"
      | some _ =>
        match hv with
        | .arr l => .ok l
        | hv =>
          .error ("Type value of homeworks key: " ++ pytype hv ++
            " is not list instance")
  | v => .error ("Type server response: " ++ pytype v ++ " is not dict instance")

/-- The membership-then-index step `status not in HOMEWORK_VERDICTS` /
`HOMEWORK_VERDICTS[status]` of `parse_status`: only a string that is a key of
the verdict table succeeds; unhashable values raise `TypeError`, hashable
non-keys raise the `ValueError` of the source. -/
def statusLookup : JValue → Except String String
  | .arr _ => .error "unhashable type: \x27list\x27"
  | .obj _ => .error "unhashable type: \x27dict\x27"
  | .str s =>
    match dictGetStr HOMEWORK_VERDICTS s with
    | some verdict => .ok verdict
    | none =>
      .error ("Status: " ++ s ++ " is not in " ++
        strDictRepr HOMEWORK_VERDICTS ++ ".")
  | v =>
    .error ("Status: " ++ pyStr v ++ " is not in " ++
      strDictRepr HOMEWORK_VERDICTS ++ ".")

/-- Embedding of `parse_status(homeworks)` on a dict record: requires the
`homework_name` and `status` keys, a status from `HOMEWORK_VERDICTS`, and
returns the fixed notification template. -/
def parse_status (hw : List (String × JValue)) : Except String String :=
  match dictGet hw "homework_name" with
  | none => .error "Key `homework_name` is not found"
  | some name =>
    match dictGet hw "status" with
    | none => .error "Key `status` is not found"
    | some status =>
      match statusLookup status with
      | .error e => .error e
      | .ok verdict =>
        .ok ("Изменился статус проверки работы \"" ++ pyStr name ++ "\". " ++
          verdict)

/-- Bool test for `needle` occurring as a contiguous substring (Python
`'needle' in haystack` on strings), over character lists. -/
def subOccurs (needle : List Char) : List Char → Bool
  | [] => needle.isEmpty
  | c :: cs => needle.isPrefixOf (c :: cs) || subOccurs needle cs

/-- Python `'key' in xs` for a list `xs` and a string key: element-wise
equality, which can only hold on string elements. -/
def listHasStr (xs : List JValue) (key : String) : Bool :=
  xs.any (fun v => match v with | .str s => s == key | _ => false)

/-- `parse_status` as invoked by the loop on `homeworks[0]`, which need not
be a dict: Python `in` then indexing on non-dict operands follows CPython
semantics (substring test on `str`, membership on `list`, `TypeError`
otherwise), and every non-dict shape ends in an exception. -/
def parse_statusJ : JValue → Except String String
  | .obj kvs => parse_status kvs
  | .str s =>
    if subOccurs "homework_name".toList s.toList = false then
      .error "Key `homework_name` is not found"
    else if subOccurs "status".toList s.toList = false then
      .error "Key `status` is not found"
    else .error "string indices must be integers"
  | .arr xs =>
    if listHasStr xs "homework_name" = false then
      .error "Key `homework_name` is not found"
    else if listHasStr xs "status" = false then
      .error "Key `status` is not found"
    else .error "list indices must be integers or slices, not str"
  | .null => .error "argument of type \x27NoneType\x27 is not iterable"
  | .bool _ => .error "argument of type \x27bool\x27 is not iterable"
  | .num _ => .error "argument of type \x27int\x27 is not iterable"

/-- Severity levels of the `logging` calls modelled here. -/
inductive LogLevel where
  | debug : LogLevel
  | info : LogLevel
  | error : LogLevel
  | critical : LogLevel
deriving DecidableEq, Repr

/-- The three secret environment variables read at module load
(`os.getenv` yields `none` when the variable is unset). -/
structure Env where
  PRACTICUM_TOKEN : Option String
  TELEGRAM_TOKEN : Option String
  TELEGRAM_CHAT_ID : Option String

/-- The `SOURCE` tuple of `check_tokens`: the names of the required tokens. -/
def SOURCE : List String :=
  ["PRACTICUM_TOKEN", "TELEGRAM_TOKEN", "TELEGRAM_CHAT_ID"]

/-- `globals()[token]` restricted to the three token names. -/
def globalsGet (env : Env) (t : String) : Option String :=
  if t = "PRACTICUM_TOKEN" then env.PRACTICUM_TOKEN
  else if t = "TELEGRAM_TOKEN" then env.TELEGRAM_TOKEN
  else if t = "TELEGRAM_CHAT_ID" then env.TELEGRAM_CHAT_ID
  else none

/-- Python truthiness of an optional string: `None` and `''` are falsy. -/
def truthy : Option String → Bool
  | none => false
  | some s => !(s == "")

/-- The `not_found_tokens` list comprehension of `check_tokens`. -/
def not_found_tokens (env : Env) : List String :=
  SOURCE.filter (fun t => !truthy (globalsGet env t))

/-- Embedding of `check_tokens()`: logs and raises `TokenNotFound` naming the
missing tokens when any of the three is unset or empty, otherwise logs
success.  The returned pair is (log lines, outcome). -/
def check_tokens (env : Env) : List (LogLevel × String) × Except String Unit :=
  let nft := not_found_tokens env
  if nft ≠ [] then
    let critical_msg := "Tokens: " ++ String.intercalate ", " nft ++ " not found."
    ([(LogLevel.critical, critical_msg)], Except.error critical_msg)
  else
    ([(LogLevel.info, "All tokens upload")], Except.ok ())

/-- What the HTTP transport produced for one `requests.get` call: either a
raised `requests.RequestException` (with its text), or a response carrying a
status code, a reason phrase, and the outcome of decoding the body as JSON. -/
inductive Transport where
  | fail : String → Transport
  | resp : Nat → String → Except String JValue → Transport

/-- The typed errors `get_api_answer` can raise. -/
inductive ApiError where
  | connectionError : String → ApiError
  | wrongResponseStatusCode : String → ApiError
  | jsonDecodeError : String → ApiError
deriving DecidableEq, Repr

/-- Embedding of `get_api_answer(timestamp)` as a function of the transport
outcome: a transport exception becomes `ConnectionError` wrapping its text, a
non-200 status raises `WrongResponseStatusCode` with code and reason, and a
200 response yields `response.json()` (whose own decode failure propagates). -/
def get_api_answer : Transport → Except ApiError JValue
  | .fail err =>
    .error (.connectionError
      ("Error happens while sending the request. It says: " ++ err))
  | .resp status reason body =>
    if status ≠ 200 then
      .error (.wrongResponseStatusCode
        ("Endpoint is not available. Status code: " ++ toString status ++
          " is " ++ reason))
    else
      match body with
      | .error e => .error (.jsonDecodeError e)
      | .ok v => .ok v

/-- Embedding of `send_message(bot, message)` as a function of the outcome of
`bot.send_message` (`Except.error e` is a raised `telegram.TelegramError`
with text `e`).  The result is `Except.ok logs`: the `except` clause catches
the transport error, logs it at error severity, and the function never
raises. -/
def send_message (chatId : String) (outcome : Except String Unit) :
    Except String (List (LogLevel × String)) :=
  let startLog : LogLevel × String :=
    (LogLevel.info, "Start sending message to telegram: " ++ chatId)
  match outcome with
  | .ok _ => .ok [startLog, (LogLevel.debug, "Message sent successfully")]
  | .error e =>
    .ok [startLog,
      (LogLevel.error, "Error happens while sending message to telegram: " ++ e)]

/-- The loop-local mutable state of `main`: the poll cursor and the
last-sent message. -/
structure LoopState where
  timestamp : Int
  old_message : String
deriving DecidableEq, Repr

/-- The `try` block of one loop iteration of `main`, as a function of the
fetch outcome `api` (what `get_api_answer(timestamp)` returned or raised,
its error rendered as `str(error)`) and of `now`, the value of
`int(time.time())` taken after the attempt.  Returns the updated state and
the list of messages handed to `send_message`, or the text of the exception
that escaped the block. -/
def mainTryBody (st : LoopState) (api : Except String JValue) (now : Int) :
    Except String (LoopState × List String) :=
  match api with
  | .error e => .error e
  | .ok response =>
    match check_response response with
    | .error e => .error e
    | .ok homeworks =>
      match homeworks with
      | [] => .ok ({ st with timestamp := now }, [])
      | hw :: _ =>
        match parse_statusJ hw with
        | .error e => .error e
        | .ok message =>
          .ok ({ timestamp := now, old_message := message }, [message])

/-- One full iteration of the `while True` loop: the `try` block, and on
exception the `except Exception` handler that formats the error, sends it
only when it differs from `old_message`, and records it.  Returns the new
state and the messages sent this iteration. -/
def mainIterate (st : LoopState) (api : Except String JValue) (now : Int) :
    LoopState × List String :=
  match mainTryBody st api now with
  | .ok r => r
  | .error e =>
    if "Error occurred while loop working: " ++ e ≠ st.old_message then
      ({ st with old_message := "Error occurred while loop working: " ++ e },
        ["Error occurred while loop working: " ++ e])
    else
      (st, [])

/-- A finite prefix of the loop's execution: fold `mainIterate` over a list
of per-iteration inputs, accumulating every message sent. -/
def mainRun (st : LoopState) :
    List (Except String JValue × Int) → LoopState × List String
  | [] => (st, [])
  | (api, now) :: rest =>
    ((mainRun (mainIterate st api now).1 rest).1,
      (mainIterate st api now).2 ++ (mainRun (mainIterate st api now).1 rest).2)

/-- A well-formed homework record with status `approved`. -/
def hwRec1 : JValue :=
  .obj [("homework_name", .str "hw1"), ("status", .str "approved")]

/-- A well-formed homework record with status `rejected`. -/
def hwRec2 : JValue :=
  .obj [("homework_name", .str "hw2"), ("status", .str "rejected")]

/-- A valid payload holding exactly one homework record. -/
def payload1 : JValue :=
  .obj [("homeworks", .arr [hwRec1]), ("current_date", .num 1700000000)]

/-- A valid payload holding two homework records. -/
def payload2 : JValue :=
  .obj [("homeworks", .arr [hwRec1, hwRec2]), ("current_date", .num 1700000000)]

/-- A valid payload with an empty homework list. -/
def emptyPayload : JValue :=
  .obj [("homeworks", .arr []), ("current_date", .num 1700000000)]

/-- Both success branches of the `try` block set the cursor to `now`. -/
lemma mainTryBody_timestamp (st : LoopState) (api : Except String JValue)
    (now : Int) (r : LoopState × List String)
    (h : mainTryBody st api now = Except.ok r) : r.1.timestamp = now := by
  unfold mainTryBody at h
  repeat' split at h
  all_goals first
    | (injection h with h; rw [← h])
    | injection h

/-- Both success branches of the `try` block leave `old_message` equal to the
last message they sent (or unchanged when they sent none). -/
lemma mainTryBody_old_message (st : LoopState) (api : Except String JValue)
    (now : Int) (r : LoopState × List String)
    (h : mainTryBody st api now = Except.ok r) :
    r.1.old_message = (r.2.getLast?).getD st.old_message := by
  unfold mainTryBody at h
  repeat' split at h
  all_goals first
    | (injection h with h; rw [← h]; rfl)
    | injection h

/-- One failing iteration in full: the handler formats the message, sends it
exactly when it differs from `old_message`, and records what it sent. -/
lemma mainIterate_error (st : LoopState) (e : String) (now : Int) :
    mainIterate st (Except.error e) now =
      if "Error occurred while loop working: " ++ e ≠ st.old_message then
        ({ st with old_message := "Error occurred while loop working: " ++ e },
          ["Error occurred while loop working: " ++ e])
      else (st, []) := rfl

/-- Once `old_message` holds the error text, any number of further identical
failures sends nothing and leaves the state untouched. -/
lemma mainRun_suppressed (e : String) (now : Int) (k : Nat) (st : LoopState)
    (h : st.old_message = "Error occurred while loop working: " ++ e) :
    mainRun st (List.replicate k (Except.error e, now)) = (st, []) := by
  induction k with
  | zero => rfl
  | succ n ih =>
    rw [List.replicate_succ]
    simp only [mainRun]
    rw [mainIterate_error, if_neg (fun hne => hne h.symm)]
    simp [ih]

/-- The nonempty `getLast?` of a cons list. -/
lemma getLast?_cons_isSome {α : Type} (a : α) (l : List α) :
    ((a :: l).getLast?).isSome = true := by
  induction l generalizing a with
  | nil => rfl
  | cons b bs ih => rw [List.getLast?_cons_cons]; exact ih b

/-- `getD` of the `getLast?` of an append, threaded right to left. -/
lemma getLast?_append_getD (l₁ l₂ : List String) (d : String) :
    (((l₁ ++ l₂).getLast?).getD d) = ((l₂.getLast?).getD ((l₁.getLast?).getD d)) := by
  cases l₂ with
  | nil => simp
  | cons b bs =>
    rw [List.getLast?_append_cons]
    cases hb : (b :: bs).getLast? with
    | none =>
      have hs := getLast?_cons_isSome b bs
      rw [hb] at hs
      simp at hs
    | some x => simp

/-- One arbitrary iteration preserves the last-sent-message invariant. -/
lemma mainIterate_old_message (st : LoopState) (api : Except String JValue)
    (now : Int) :
    (mainIterate st api now).1.old_message =
      (((mainIterate st api now).2).getLast?).getD st.old_message := by
  cases htb : mainTryBody st api now with
  | ok r =>
    have h := mainTryBody_old_message st api now r htb
    simp only [mainIterate, htb]
    exact h
  | error e =>
    simp only [mainIterate, htb]
    by_cases hc : "Error occurred while loop working: " ++ e ≠ st.old_message
    · rw [if_pos hc]; rfl
    · rw [if_neg hc]; rfl

/-- Claim C1 (counterexample): a successful iteration over a validated payload
with two homework records sends one notification (the status of the record at
index 0), not two — refuting one-notification-per-record. -/
theorem C1_counterexample :
    check_response payload2 = Except.ok [hwRec1, hwRec2] ∧
    (mainIterate ⟨0, ""⟩ (Except.ok payload2) 5).2 =
      ["Изменился статус проверки работы \"hw1\". Работа проверена: ревьюеру всё понравилось. Ура!"] ∧
    ((mainIterate ⟨0, ""⟩ (Except.ok payload2) 5).2).length ≠
      [hwRec1, hwRec2].length := by
  refine ⟨rfl, rfl, by decide⟩

/-- Claim C1 (amended): a successful poll iteration whose validated payload
holds N homework records sends `min N 1` notifications: exactly one —
formatted from the record at index 0 — when N ≥ 1, and none when N = 0. -/
theorem C1_amended (st : LoopState) (p : JValue) (now : Int) (l : List JValue)
    (h : check_response p = Except.ok l)
    (hhd : (match l with
            | [] => true
            | hw :: _ => (parse_statusJ hw).isOk) = true) :
    ((mainIterate st (Except.ok p) now).2).length = min l.length 1 := by
  cases l with
  | nil => simp [mainIterate, mainTryBody, h]
  | cons hw rest =>
    simp only at hhd
    cases hp : parse_statusJ hw with
    | error e => rw [hp] at hhd; simp [Except.isOk, Except.toBool] at hhd
    | ok m =>
      simp only [mainIterate, mainTryBody, h, hp]
      simp [List.length_cons]

/-- Witness for C1_amended at a concrete one-record payload. -/
theorem C1_amended_witness :
    ((mainIterate ⟨0, ""⟩ (Except.ok payload1) 9).2).length =
      min [hwRec1].length 1 :=
  C1_amended ⟨0, ""⟩ payload1 9 [hwRec1] rfl (by decide)

/-- Claim C2 (confirmed): on a successful iteration, an empty validated list
sends nothing, and a nonempty validated list sends exactly the notification
formatted from the record at index 0 — whatever records follow it. -/
theorem C2 (st : LoopState) (p : JValue) (now : Int) :
    (check_response p = Except.ok [] →
      (mainIterate st (Except.ok p) now).2 = []) ∧
    (∀ hw rest m, check_response p = Except.ok (hw :: rest) →
      parse_statusJ hw = Except.ok m →
      (mainIterate st (Except.ok p) now).2 = [m]) := by
  constructor
  · intro h
    simp [mainIterate, mainTryBody, h]
  · intro hw rest m h hp
    simp [mainIterate, mainTryBody, h, hp]

/-- Witness for C2 at a concrete empty payload and one-record payload. -/
theorem C2_witness :
    (mainIterate ⟨0, ""⟩ (Except.ok emptyPayload) 3).2 = [] ∧
    (mainIterate ⟨0, ""⟩ (Except.ok payload1) 9).2 =
      ["Изменился статус проверки работы \"hw1\". Работа проверена: ревьюеру всё понравилось. Ура!"] :=
  ⟨(C2 ⟨0, ""⟩ emptyPayload 3).1 rfl,
   (C2 ⟨0, ""⟩ payload1 9).2 hwRec1 []
     "Изменился статус проверки работы \"hw1\". Работа проверена: ревьюеру всё понравилось. Ура!"
     rfl rfl⟩

/-- Claim C3 (counterexample): a failed iteration does not advance the
cursor — starting from cursor 0, after a failing attempt whose post-attempt
wall clock reads 5, the cursor is still 0. -/
theorem C3_counterexample :
    (mainIterate ⟨0, ""⟩ (Except.error "boom") 5).1.timestamp = 0 ∧
    (mainIterate ⟨0, ""⟩ (Except.error "boom") 5).1.timestamp ≠ 5 :=
  ⟨rfl, by decide⟩

/-- Claim C3 (amended): the cursor is advanced to the post-attempt wall-clock
time exactly on iterations whose try-block succeeds; a failed iteration
leaves it unchanged, so the next iteration reuses the previous cursor. -/
theorem C3_amended (st : LoopState) (api : Except String JValue) (now : Int) :
    (∀ r, mainTryBody st api now = Except.ok r →
      (mainIterate st api now).1.timestamp = now) ∧
    (∀ e, mainTryBody st api now = Except.error e →
      (mainIterate st api now).1.timestamp = st.timestamp) := by
  constructor
  · intro r h
    simp only [mainIterate, h]
    exact mainTryBody_timestamp st api now r h
  · intro e h
    simp only [mainIterate, h]
    by_cases hc : "Error occurred while loop working: " ++ e ≠ st.old_message
    · rw [if_pos hc]
    · rw [if_neg hc]

/-- Witness for C3_amended: a successful iteration advances the cursor to 7,
a failed one keeps it at 0. -/
theorem C3_witness :
    (mainIterate ⟨0, ""⟩ (Except.ok emptyPayload) 7).1.timestamp = 7 ∧
    (mainIterate ⟨0, ""⟩ (Except.error "x") 7).1.timestamp = 0 :=
  ⟨(C3_amended ⟨0, ""⟩ (Except.ok emptyPayload) 7).1 (⟨7, ""⟩, []) rfl,
   (C3_amended ⟨0, ""⟩ (Except.error "x") 7).2 "x" rfl⟩

/-- The three-iteration trace refuting C4: fail, succeed with an empty list,
fail again with the same cause. -/
def cex4Trace : List (Except String JValue × Int) :=
  [(Except.error "boom", 1), (Except.ok emptyPayload, 2), (Except.error "boom", 3)]

/-- Claim C4 (counterexample): the trace fail(`boom`) / success(empty list) /
fail(`boom`) holds two distinct runs of consecutive identical failures,
separated by a successful iteration, yet only the first run is announced:
the second run sends zero notifications because `old_message` survived the
quiet successful iteration. -/
theorem C4_counterexample :
    check_response emptyPayload = Except.ok [] ∧
    (mainRun ⟨0, ""⟩ cex4Trace).2 = ["Error occurred while loop working: boom"] :=
  ⟨rfl, rfl⟩

/-- Claim C4 (amended): a failing iteration sends its formatted message iff
it differs from the last-sent message, recording it when sent; hence a run of
n ≥ 1 consecutive identical failures sends at most one notification — exactly
one when the message differs from the last-sent message as the run starts
(which may still hold it from an earlier run, across quiet successful
iterations), and none otherwise. -/
theorem C4_amended :
    (∀ (st : LoopState) (e : String) (now : Int),
      mainIterate st (Except.error e) now =
        if "Error occurred while loop working: " ++ e ≠ st.old_message then
          ({ st with old_message := "Error occurred while loop working: " ++ e },
            ["Error occurred while loop working: " ++ e])
        else (st, [])) ∧
    (∀ (st : LoopState) (e : String) (now : Int) (n : Nat), 0 < n →
      (mainRun st (List.replicate n (Except.error e, now))).2 =
        if "Error occurred while loop working: " ++ e = st.old_message then []
        else ["Error occurred while loop working: " ++ e]) := by
  refine ⟨fun st e now => mainIterate_error st e now, ?_⟩
  intro st e now n hn
  cases n with
  | zero => omega
  | succ m =>
    rw [List.replicate_succ]
    simp only [mainRun]
    rw [mainIterate_error]
    by_cases hcase : "Error occurred while loop working: " ++ e = st.old_message
    · rw [if_neg (fun hne => hne hcase), if_pos hcase]
      rw [mainRun_suppressed e now m st hcase.symm]
      rfl
    · rw [if_pos hcase, if_neg hcase]
      rw [mainRun_suppressed e now m
        ({ st with old_message := "Error occurred while loop working: " ++ e }) rfl]
      rfl

/-- Witness for C4_amended: two identical consecutive failures from a clean
state yield exactly one notification. -/
theorem C4_witness :
    (mainRun ⟨0, "prev"⟩ (List.replicate 2 (Except.error "boom", 4))).2 =
      ["Error occurred while loop working: boom"] := by
  have h := C4_amended.2 ⟨0, "prev"⟩ "boom" 4 2 (by decide)
  rw [if_neg (by decide)] at h
  exact h

/-- Claim C10 (confirmed): across any finite trace of iterations,
`old_message` always equals the text of the most recent message handed to
the Notifier, falling back to its starting value (the empty string at
startup) while nothing has been sent — it is updated exactly by sends, and a
suppressed duplicate error leaves it unchanged. -/
theorem C10 (st : LoopState) (inputs : List (Except String JValue × Int)) :
    (mainRun st inputs).1.old_message =
      (((mainRun st inputs).2).getLast?).getD st.old_message := by
  induction inputs generalizing st with
  | nil => rfl
  | cons p rest ih =>
    obtain ⟨api, now⟩ := p
    simp only [mainRun]
    rw [getLast?_append_getD, ← mainIterate_old_message st api now]
    exact ih (mainIterate st api now).1

/-- Membership in the verdict table is exactly the three enumerated keys. -/
lemma dictGetStr_verdicts_isSome (s : String) :
    (dictGetStr HOMEWORK_VERDICTS s).isSome = true ↔
      s = "approved" ∨ s = "reviewing" ∨ s = "rejected" := by
  simp only [HOMEWORK_VERDICTS, dictGetStr]
  split_ifs with h1 h2 h3 <;> simp_all [eq_comm]

/-- Claim C5 (confirmed): `parse_status` succeeds exactly when the record has
the `homework_name` and `status` keys with a status string among the three
enumerated verdicts, and on success it yields the fixed template
interpolating the name and the localized verdict text. -/
theorem C5 (hw : List (String × JValue)) :
    ((∃ s, parse_status hw = Except.ok s) ↔
      ((dictGet hw "homework_name").isSome = true ∧
        ∃ s, dictGet hw "status" = some (JValue.str s) ∧
          (s = "approved" ∨ s = "reviewing" ∨ s = "rejected"))) ∧
    (∀ name s verdict, dictGet hw "homework_name" = some name →
      dictGet hw "status" = some (JValue.str s) →
      dictGetStr HOMEWORK_VERDICTS s = some verdict →
      parse_status hw =
        Except.ok ("Изменился статус проверки работы \"" ++ pyStr name ++
          "\". " ++ verdict)) := by
  constructor
  · constructor
    · rintro ⟨s, hs⟩
      cases hname : dictGet hw "homework_name" with
      | none => simp [parse_status, hname] at hs
      | some name =>
        cases hstat : dictGet hw "status" with
        | none => simp [parse_status, hname, hstat] at hs
        | some status =>
          cases hsl : statusLookup status with
          | error e => simp [parse_status, hname, hstat, hsl] at hs
          | ok verdict =>
            refine ⟨by simp [hname], ?_⟩
            cases status with
            | str s2 =>
              refine ⟨s2, rfl, ?_⟩
              cases hd : dictGetStr HOMEWORK_VERDICTS s2 with
              | none => simp [statusLookup, hd] at hsl
              | some v =>
                exact (dictGetStr_verdicts_isSome s2).mp (by rw [hd]; rfl)
            | null => simp [statusLookup] at hsl
            | bool b => simp [statusLookup] at hsl
            | num n => simp [statusLookup] at hsl
            | arr xs => simp [statusLookup] at hsl
            | obj kvs => simp [statusLookup] at hsl
    · rintro ⟨hname, s, hstat, hmem⟩
      obtain ⟨name, hname2⟩ := Option.isSome_iff_exists.mp hname
      obtain ⟨v, hv⟩ := Option.isSome_iff_exists.mp
        ((dictGetStr_verdicts_isSome s).mpr hmem)
      exact ⟨"Изменился статус проверки работы \"" ++ pyStr name ++ "\". " ++ v,
        by simp [parse_status, hname2, hstat, statusLookup, hv]⟩
  · intro name s verdict hname hstat hv
    simp [parse_status, hname, hstat, statusLookup, hv]

/-- Witness for C5: the record of the spec scenario produces the exact
localized notification text. -/
theorem C5_witness :
    parse_status [("homework_name", JValue.str "hw1"),
        ("status", JValue.str "approved")] =
      Except.ok "Изменился статус проверки работы \"hw1\". Работа проверена: ревьюеру всё понравилось. Ура!" := by
  have h := (C5 [("homework_name", JValue.str "hw1"),
      ("status", JValue.str "approved")]).2
    (JValue.str "hw1") "approved"
    "Работа проверена: ревьюеру всё понравилось. Ура!" rfl rfl rfl
  exact h

/-- Claim C6 (confirmed): `check_response` succeeds exactly on object
payloads carrying both required keys with a list under `homeworks`, and then
returns that list unchanged. -/
theorem C6 (v : JValue) :
    (∀ l, check_response v = Except.ok l →
      ∃ kvs, v = JValue.obj kvs ∧
        dictGet kvs "homeworks" = some (JValue.arr l) ∧
        (dictGet kvs "current_date").isSome = true) ∧
    (∀ kvs l, v = JValue.obj kvs →
      dictGet kvs "homeworks" = some (JValue.arr l) →
      (dictGet kvs "current_date").isSome = true →
      check_response v = Except.ok l) := by
  constructor
  · intro l h
    cases v with
    | obj kvs =>
      refine ⟨kvs, rfl, ?_⟩
      cases hh : dictGet kvs "homeworks" with
      | none => simp [check_response, hh] at h
      | some hv =>
        cases hc : dictGet kvs "current_date" with
        | none => simp [check_response, hh, hc] at h
        | some cd =>
          cases hv with
          | arr l2 =>
            have h2 : l2 = l := by simpa [check_response, hh, hc] using h
            subst h2
            exact ⟨rfl, rfl⟩
          | null => simp [check_response, hh, hc] at h
          | bool b => simp [check_response, hh, hc] at h
          | num n => simp [check_response, hh, hc] at h
          | str s => simp [check_response, hh, hc] at h
          | obj kvs2 => simp [check_response, hh, hc] at h
    | null => simp [check_response] at h
    | bool b => simp [check_response] at h
    | num n => simp [check_response] at h
    | str s => simp [check_response] at h
    | arr xs => simp [check_response] at h
  · intro kvs l hv hh hc
    subst hv
    obtain ⟨cd, hcd⟩ := Option.isSome_iff_exists.mp hc
    simp [check_response, hh, hcd]

/-- Witness for C6: the one-record payload validates to its record list. -/
theorem C6_witness : check_response payload1 = Except.ok [hwRec1] :=
  (C6 payload1).2
    [("homeworks", JValue.arr [hwRec1]), ("current_date", JValue.num 1700000000)]
    [hwRec1] rfl rfl rfl

/-- Claim C7 (confirmed): `get_api_answer` maps a transport exception to
`ConnectionError` wrapping its text, any non-200 status to
`WrongResponseStatusCode` carrying code and reason, and a 200 response with
decodable JSON to that JSON value. -/
theorem C7 :
    (∀ err, get_api_answer (Transport.fail err) =
      Except.error (ApiError.connectionError
        ("Error happens while sending the request. It says: " ++ err))) ∧
    (∀ status reason body, status ≠ 200 →
      get_api_answer (Transport.resp status reason body) =
        Except.error (ApiError.wrongResponseStatusCode
          ("Endpoint is not available. Status code: " ++ toString status ++
            " is " ++ reason))) ∧
    (∀ reason v, get_api_answer (Transport.resp 200 reason (Except.ok v)) =
      Except.ok v) := by
  refine ⟨fun err => rfl, fun s r b h => ?_, fun r v => rfl⟩
  simp [get_api_answer, h]

/-- Witness for C7: a 503 response raises `WrongResponseStatusCode` with the
code and reason phrase in the message. -/
theorem C7_witness :
    get_api_answer (Transport.resp 503 "Service Unavailable"
        (Except.ok JValue.null)) =
      Except.error (ApiError.wrongResponseStatusCode
        "Endpoint is not available. Status code: 503 is Service Unavailable") := by
  have h := C7.2.1 503 "Service Unavailable" (Except.ok JValue.null) (by decide)
  exact h

/-- Claim C8 (confirmed): `check_tokens` succeeds silently-logged when every
secret is present and nonempty, and otherwise logs at critical severity and
raises a message naming exactly the missing tokens. -/
theorem C8 (env : Env) :
    (not_found_tokens env = [] →
      check_tokens env = ([(LogLevel.info, "All tokens upload")], Except.ok ())) ∧
    (not_found_tokens env ≠ [] →
      check_tokens env =
        ([(LogLevel.critical,
            "Tokens: " ++ String.intercalate ", " (not_found_tokens env) ++
              " not found.")],
          Except.error
            ("Tokens: " ++ String.intercalate ", " (not_found_tokens env) ++
              " not found."))) ∧
    (∀ t, t ∈ not_found_tokens env ↔
      t ∈ SOURCE ∧ truthy (globalsGet env t) = false) := by
  refine ⟨?_, ?_, ?_⟩
  · intro h
    simp [check_tokens, h]
  · intro h
    simp [check_tokens, h]
  · intro t
    simp [not_found_tokens, List.mem_filter]

/-- Witness for C8: with the bot token unset and the chat id empty, both are
named (and only they); with all three set, startup succeeds. -/
theorem C8_witness :
    check_tokens ⟨some "tok", none, some ""⟩ =
      ([(LogLevel.critical, "Tokens: TELEGRAM_TOKEN, TELEGRAM_CHAT_ID not found.")],
        Except.error "Tokens: TELEGRAM_TOKEN, TELEGRAM_CHAT_ID not found.") ∧
    check_tokens ⟨some "a", some "b", some "c"⟩ =
      ([(LogLevel.info, "All tokens upload")], Except.ok ()) :=
  ⟨(C8 ⟨some "tok", none, some ""⟩).2.1 (by decide),
   (C8 ⟨some "a", some "b", some "c"⟩).1 (by decide)⟩

/-- Claim C9 (confirmed): `send_message` always returns (never raises), and a
transport failure of the underlying send is turned into an error-severity log
line. -/
theorem C9 (chatId : String) (outcome : Except String Unit) :
    (∃ logs, send_message chatId outcome = Except.ok logs) ∧
    (∀ e, outcome = Except.error e →
      send_message chatId outcome = Except.ok
        [(LogLevel.info, "Start sending message to telegram: " ++ chatId),
          (LogLevel.error,
            "Error happens while sending message to telegram: " ++ e)]) := by
  constructor
  · cases outcome with
    | ok u => exact ⟨_, rfl⟩
    | error e => exact ⟨_, rfl⟩
  · intro e h
    subst h
    rfl

/-- Witness for C9: a concrete failing send is swallowed into a returned
error-severity log line. -/
theorem C9_witness :
    send_message "12345" (Except.error "Timed out") = Except.ok
      [(LogLevel.info, "Start sending message to telegram: 12345"),
        (LogLevel.error,
          "Error happens while sending message to telegram: Timed out")] :=
  (C9 "12345" (Except.error "Timed out")).2 "Timed out" rfl
